import Mathlib

/-!
Shallow embedding of the KAMCORP inventory backend: the transactional
inventory ledger (sale/purchase controllers), the mongoose schema
validation that runs on every save, the audit/notification side effects,
and the read-only reporting engine.  Monetary amounts (JS numbers) are
modelled as integers at the smallest currency unit, following the
numeric semantics the system documents for monetary sums; quantities and
stock counters are integers, object ids naturals, timestamps naturals.
The one non-integer quantity, the derived average order value, is a
rational.  Request bodies are records of `Option` fields so that the JS
truthiness checks of the controllers can be translated literally.
-/

namespace Kamcorp

/-- Catalog row (backend/src/models/Product.js).  The schema requires
`unitPriceTZS ≥ 0`, `costPriceTZS ≥ 0` and `stockQuantity ≥ 0`; these
constraints are enforced by `productValid` on every save. -/
structure Product where
  pid : Nat
  name : String
  sku : String
  category : String
  unitPriceTZS : ℤ
  costPriceTZS : ℤ
  stockQuantity : ℤ
deriving Repr, DecidableEq

/-- Sale row (backend/src/models/Sale.js), with the product snapshot
fields inlined. -/
structure Sale where
  sid : Nat
  productId : Nat
  snapName : String
  snapSku : String
  quantitySold : ℤ
  unitPriceAtSaleTZS : ℤ
  totalPriceTZS : ℤ
  paymentMethod : String
  paymentStatus : String
  soldBy : Nat
  date : Nat
deriving Repr, DecidableEq

/-- Purchase row (models/Purchase.js); no snapshot fields exist. -/
structure Purchase where
  prid : Nat
  productId : Nat
  quantityPurchased : ℤ
  unitCostTZS : ℤ
  totalCostTZS : ℤ
  supplierText : String
  purchasedBy : Nat
  date : Nat
deriving Repr, DecidableEq

/-- Audit log row (models/AuditLog.js); the `meta` blob is elided. -/
structure AuditEntry where
  userId : Nat
  action : String
  entityType : String
  entityId : Option Nat
deriving Repr, DecidableEq

/-- Notification row (utils/pdfExport.js helper `createNotification`). -/
structure Notification where
  userId : Nat
  ntype : String
  title : String
  message : String
  link : String
deriving Repr, DecidableEq

/-- The persistent store: the three ledger collections that live inside
the mongoose session, the two side-effect collections that are written
outside of it, the set of admin user ids (resolved by
`User.find (role admin)`), and a fresh-id counter for new rows. -/
structure DB where
  products : List Product
  sales : List Sale
  purchases : List Purchase
  auditLogs : List AuditEntry
  notifications : List Notification
  admins : List Nat
  nextId : Nat
deriving Repr, DecidableEq

/-- `Product.findById`. -/
def findProduct (db : DB) (pid : Nat) : Option Product :=
  db.products.find? (fun p => p.pid == pid)

/-- `Sale.findById`. -/
def findSale (db : DB) (sid : Nat) : Option Sale :=
  db.sales.find? (fun s => s.sid == sid)

/-- `Purchase.findById`. -/
def findPurchase (db : DB) (prid : Nat) : Option Purchase :=
  db.purchases.find? (fun pr => pr.prid == prid)

/-- Mongoose validation of the product schema, run by `product.save()`:
`unitPriceTZS`, `costPriceTZS` and `stockQuantity` all carry a `min: 0`
validator. -/
def productValid (p : Product) : Bool :=
  0 ≤ p.unitPriceTZS && 0 ≤ p.costPriceTZS && 0 ≤ p.stockQuantity

/-- Mongoose validation of the sale schema, run by `Sale.create` and
`sale.save()`: `quantitySold` has `min: 1`, the two prices have
`min: 0`, `paymentMethod` is an enum over cash/mobile/card and
`paymentStatus` an enum over paid/pending. -/
def saleRowValid (s : Sale) : Bool :=
  1 ≤ s.quantitySold && 0 ≤ s.unitPriceAtSaleTZS && 0 ≤ s.totalPriceTZS &&
    (["cash", "mobile", "card"].contains s.paymentMethod) &&
    (["paid", "pending"].contains s.paymentStatus)

/-- Mongoose validation of the purchase schema: `quantityPurchased` has
`min: 1` and the two cost fields have `min: 0`. -/
def purchaseRowValid (pr : Purchase) : Bool :=
  1 ≤ pr.quantityPurchased && 0 ≤ pr.unitCostTZS && 0 ≤ pr.totalCostTZS

/-- `product.save({ session })`: replace the stored row with the same id. -/
def saveProduct (db : DB) (p : Product) : DB :=
  { db with products := db.products.map (fun q => if q.pid == p.pid then p else q) }

/-- `sale.save({ session })`. -/
def saveSale (db : DB) (s : Sale) : DB :=
  { db with sales := db.sales.map (fun t => if t.sid == s.sid then s else t) }

/-- `purchase.save({ session })`. -/
def savePurchase (db : DB) (pr : Purchase) : DB :=
  { db with purchases := db.purchases.map (fun q => if q.prid == pr.prid then pr else q) }

/-- `Sale.findByIdAndDelete`. -/
def removeSale (db : DB) (sid : Nat) : DB :=
  { db with sales := db.sales.filter (fun s => !(s.sid == sid)) }

/-- `Purchase.findByIdAndDelete`. -/
def removePurchase (db : DB) (prid : Nat) : DB :=
  { db with purchases := db.purchases.filter (fun pr => !(pr.prid == prid)) }

/-- JS truthiness of an optional numeric request field: `undefined` and
`0` are falsy. -/
def truthyInt : Option ℤ → Bool
  | none => false
  | some v => !(v == 0)

/-- JS truthiness of an optional string field: `undefined` and the empty
string are falsy. -/
def truthyStr : Option String → Bool
  | none => false
  | some s => !(s == "")

/-- JS truthiness of an optional id field (object ids are nonempty
strings, hence truthy whenever present). -/
def truthyId : Option Nat → Bool
  | none => false
  | some _ => true

/-- Typed rendering of the error responses the controllers produce.
`insufficientStock` carries the available and requested quantities that
the controller interpolates into its message; `server` is the generic
500 produced by the catch-all after `session.abortTransaction()`. -/
inductive ApiError where
  | validation : String → ApiError
  | notFound : String → ApiError
  | insufficientStock : ℤ → ℤ → ApiError
  | server : String → ApiError
deriving Repr, DecidableEq

/-- Environment flags injecting failures into the two best-effort side
channels: when set, the corresponding write throws inside its helper
and the helper catches and logs it. -/
structure SideFx where
  auditFails : Bool
  notifFails : Bool
deriving Repr, DecidableEq

/-- `createAuditLog` (utils/auditLogger.js): the insert is wrapped in
try/catch, so a failing write only logs to the console and the caller
sees no change of control flow.  The write does not join the mongoose
session. -/
def createAuditLog (fx : SideFx) (db : DB) (e : AuditEntry) : DB :=
  if fx.auditFails then db
  else { db with auditLogs := db.auditLogs ++ [e] }

/-- `createLowStockNotification` (utils helper): one row per admin via
`insertMany`, wrapped in try/catch, outside the session. -/
def createLowStockNotification (fx : SideFx) (db : DB) (p : Product) : DB :=
  if fx.notifFails then db
  else
    { db with notifications := db.notifications ++
        db.admins.map (fun a =>
          { userId := a, ntype := "low_stock", title := "Low Stock Alert",
            message := p.name ++ " is running low (" ++ toString p.stockQuantity ++ " remaining)",
            link := "/products" }) }

/-- `createSaleNotification` applied to every admin (the controller
loops over the admin list), wrapped in try/catch, outside the session. -/
def createSaleNotifications (fx : SideFx) (db : DB) (s : Sale) (productName : String) : DB :=
  if fx.notifFails then db
  else
    { db with notifications := db.notifications ++
        db.admins.map (fun a =>
          { userId := a, ntype := "sale", title := "New Sale Recorded",
            message := "Sale of " ++ toString s.quantitySold ++ " " ++ productName,
            link := "/sales" }) }

/-- `createPurchaseNotification` applied to every admin, wrapped in
try/catch, outside the session. -/
def createPurchaseNotifications (fx : SideFx) (db : DB) (pr : Purchase) (productName : String) : DB :=
  if fx.notifFails then db
  else
    { db with notifications := db.notifications ++
        db.admins.map (fun a =>
          { userId := a, ntype := "purchase", title := "New Purchase Recorded",
            message := "Purchased " ++ toString pr.quantityPurchased ++ " " ++ productName,
            link := "/purchases" }) }

/-- Observable events of one `createSale`/`createPurchase` request, used
to state in which order the handler performs its writes relative to
`session.commitTransaction()`. -/
inductive Ev where
  | rowInsert
  | productSave
  | lowStockNotif
  | auditWrite
  | saleNotif
  | commitTxn
deriving Repr, DecidableEq

/-- Request body of `POST /sales`. -/
structure CreateSaleReq where
  productId : Option Nat
  quantity : Option ℤ
  paymentMethod : Option String
  paymentStatus : Option String
  sellingPrice : Option ℤ
deriving Repr, DecidableEq

/-- Outcome of a mutating request: the state of the store after the
handler returns (every abort path hands back the pre-call store, since
all session writes are discarded), the typed result, and the ordered
trace of the writes the handler performed. -/
structure Outcome (α : Type) where
  db : DB
  result : Except ApiError α
  trace : List Ev
deriving Repr

/-- `createSale` (controllers/saleController.js, lines 127-265).
Control flow, in source order: the required-fields truthiness check,
`Product.findById`, the stock-sufficiency check, the negative-price
check, `Sale.create` (schema validation; a validation throw lands in the
catch-all which aborts), the stock decrement plus `product.save`
(schema validation again), the conditional low-stock fan-out, the audit
write, the per-admin sale fan-out, and finally
`session.commitTransaction()`.  The audit and notification writes do
not join the session and precede the commit. -/
def createSale (fx : SideFx) (db : DB) (userId : Nat) (now : Nat)
    (r : CreateSaleReq) : Outcome Sale :=
  if !(truthyId r.productId && truthyInt r.quantity &&
       truthyInt r.sellingPrice && truthyStr r.paymentMethod) then
    { db := db,
      result := .error (.validation
        "All fields are required: productId, quantity, sellingPrice, paymentMethod."),
      trace := [] }
  else
    match r.productId, r.quantity, r.sellingPrice, r.paymentMethod with
    | some pid, some qty, some price, some pm =>
      match findProduct db pid with
      | none =>
        { db := db, result := .error (.notFound "Product not found."), trace := [] }
      | some product =>
        if product.stockQuantity < qty then
          { db := db,
            result := .error (.insufficientStock product.stockQuantity qty),
            trace := [] }
        else if price < 0 then
          { db := db,
            result := .error (.validation "Selling price cannot be negative."),
            trace := [] }
        else
          let sale : Sale :=
            { sid := db.nextId, productId := pid,
              snapName := product.name, snapSku := product.sku,
              quantitySold := qty, unitPriceAtSaleTZS := price,
              totalPriceTZS := qty * price,
              paymentMethod := pm,
              paymentStatus := (r.paymentStatus.getD "Paid"),
              soldBy := userId, date := now }
          if !(saleRowValid sale) then
            { db := db, result := .error (.server "Failed to record sale."), trace := [] }
          else
            let product1 : Product :=
              { product with stockQuantity := product.stockQuantity - qty }
            if !(productValid product1) then
              { db := db, result := .error (.server "Failed to record sale."), trace := [] }
            else
              let db1 : DB :=
                { db with sales := db.sales ++ [sale], nextId := db.nextId + 1 }
              let db2 := saveProduct db1 product1
              let lowStock : Bool :=
                product1.stockQuantity ≤ 5 && 0 < product1.stockQuantity
              let db3 :=
                if lowStock then createLowStockNotification fx db2 product1 else db2
              let db4 := createAuditLog fx db3
                { userId := userId, action := "create_sale",
                  entityType := "sale", entityId := some sale.sid }
              let db5 := createSaleNotifications fx db4 sale product.name
              { db := db5, result := .ok sale,
                trace := [Ev.rowInsert, Ev.productSave] ++
                  (if lowStock then [Ev.lowStockNotif] else []) ++
                  [Ev.auditWrite, Ev.saleNotif, Ev.commitTxn] }
    | _, _, _, _ =>
      { db := db,
        result := .error (.validation
          "All fields are required: productId, quantity, sellingPrice, paymentMethod."),
        trace := [] }

/-- Request body of `POST /purchases`. -/
structure CreatePurchaseReq where
  productId : Option Nat
  quantity : Option ℤ
  costPrice : Option ℤ
  supplier : Option String
deriving Repr, DecidableEq

/-- `createPurchase` (purchase controller, lines 501-615).  Source
order: required-fields truthiness check, `Product.findById`,
`Purchase.create` (schema validation), the stock increment together with
the `costPriceTZS` overwrite and `product.save` (schema validation), the
audit write, the per-admin purchase fan-out, then
`session.commitTransaction()`.  There is no stock-sufficiency concern on
this path; the audit and notification writes are outside the session and
precede the commit. -/
def createPurchase (fx : SideFx) (db : DB) (userId : Nat) (now : Nat)
    (r : CreatePurchaseReq) : Outcome Purchase :=
  if !(truthyId r.productId && truthyInt r.quantity &&
       truthyInt r.costPrice && truthyStr r.supplier) then
    { db := db,
      result := .error (.validation
        "All fields are required: productId, quantity, costPrice, supplier."),
      trace := [] }
  else
    match r.productId, r.quantity, r.costPrice, r.supplier with
    | some pid, some qty, some cost, some supplier =>
      match findProduct db pid with
      | none =>
        { db := db, result := .error (.notFound "Product not found."), trace := [] }
      | some product =>
        let purchase : Purchase :=
          { prid := db.nextId, productId := pid,
            quantityPurchased := qty, unitCostTZS := cost,
            totalCostTZS := qty * cost, supplierText := supplier,
            purchasedBy := userId, date := now }
        if !(purchaseRowValid purchase) then
          { db := db, result := .error (.server "Failed to record purchase."), trace := [] }
        else
          let product1 : Product :=
            { product with stockQuantity := product.stockQuantity + qty,
                           costPriceTZS := cost }
          if !(productValid product1) then
            { db := db, result := .error (.server "Failed to record purchase."), trace := [] }
          else
            let db1 : DB :=
              { db with purchases := db.purchases ++ [purchase], nextId := db.nextId + 1 }
            let db2 := saveProduct db1 product1
            let db3 := createAuditLog fx db2
              { userId := userId, action := "create_purchase",
                entityType := "purchase", entityId := some purchase.prid }
            let db4 := createPurchaseNotifications fx db3 purchase product.name
            { db := db4, result := .ok purchase,
              trace := [Ev.rowInsert, Ev.productSave, Ev.auditWrite, Ev.saleNotif,
                        Ev.commitTxn] }
    | _, _, _, _ =>
      { db := db,
        result := .error (.validation
          "All fields are required: productId, quantity, costPrice, supplier."),
        trace := [] }

/-- Request body of `PUT /sales/:id`. -/
structure UpdateSaleReq where
  quantity : Option ℤ
  sellingPrice : Option ℤ
  paymentMethod : Option String
  paymentStatus : Option String
deriving Repr, DecidableEq

/-- `updateSale` (controllers/saleController.js, lines 325-419).
Source order: `Sale.findById`, `Product.findById`, the restore of the
prior quantity onto the stock counter, the availability check guarded by
`if (quantity && ...)`, the four `if (field)` assignments (the stock
counter is decremented again only inside `if (quantity)` — when the
quantity field is absent or zero the restored units are never taken back
out), the total recomputation, `sale.save` and `product.save` (both run
schema validation; a throw lands in the catch-all which aborts), then
the audit write and the commit. -/
def updateSale (fx : SideFx) (db : DB) (userId : Nat) (saleId : Nat)
    (r : UpdateSaleReq) : Outcome Sale :=
  match findSale db saleId with
  | none => { db := db, result := .error (.notFound "Sale not found."), trace := [] }
  | some sale0 =>
    match findProduct db sale0.productId with
    | none => { db := db, result := .error (.notFound "Product not found."), trace := [] }
    | some product0 =>
      let product1 : Product :=
        { product0 with stockQuantity := product0.stockQuantity + sale0.quantitySold }
      if truthyInt r.quantity && product1.stockQuantity < r.quantity.getD 0 then
        { db := db,
          result := .error (.insufficientStock product1.stockQuantity (r.quantity.getD 0)),
          trace := [] }
      else
        let product2 : Product :=
          if truthyInt r.quantity then
            { product1 with stockQuantity := product1.stockQuantity - r.quantity.getD 0 }
          else product1
        let sale1 : Sale :=
          if truthyInt r.quantity then { sale0 with quantitySold := r.quantity.getD 0 }
          else sale0
        let sale2 : Sale :=
          if truthyInt r.sellingPrice then
            { sale1 with unitPriceAtSaleTZS := r.sellingPrice.getD 0 }
          else sale1
        let sale3 : Sale :=
          if truthyStr r.paymentMethod then
            { sale2 with paymentMethod := r.paymentMethod.getD "" }
          else sale2
        let sale4 : Sale :=
          if truthyStr r.paymentStatus then
            { sale3 with paymentStatus := r.paymentStatus.getD "" }
          else sale3
        let sale5 : Sale :=
          { sale4 with totalPriceTZS := sale4.quantitySold * sale4.unitPriceAtSaleTZS }
        if !(saleRowValid sale5) then
          { db := db, result := .error (.server "Failed to update sale."), trace := [] }
        else if !(productValid product2) then
          { db := db, result := .error (.server "Failed to update sale."), trace := [] }
        else
          let db1 := saveSale db sale5
          let db2 := saveProduct db1 product2
          let db3 := createAuditLog fx db2
            { userId := userId, action := "update_sale",
              entityType := "sale", entityId := some sale5.sid }
          { db := db3, result := .ok sale5,
            trace := [Ev.rowInsert, Ev.productSave, Ev.auditWrite, Ev.commitTxn] }

/-- Request body of `PUT /purchases/:id`. -/
structure UpdatePurchaseReq where
  quantity : Option ℤ
  costPrice : Option ℤ
  supplier : Option String
deriving Repr, DecidableEq

/-- `updatePurchase` (purchase controller, lines 642-728).  Source
order: `Purchase.findById`, `Product.findById`, the subtraction of the
prior purchased quantity from the stock counter, then either the new
quantity or — in the `else` branch that `updateSale` lacks — the old
quantity is added back, the `if (costPrice)` overwrite of both the row
cost and the product `costPriceTZS`, the `if (supplier)` rewrite, the
total recomputation, `purchase.save` and `product.save` (schema
validation), the audit write, and the commit.  No availability check is
performed on this path. -/
def updatePurchase (fx : SideFx) (db : DB) (userId : Nat) (purchaseId : Nat)
    (r : UpdatePurchaseReq) : Outcome Purchase :=
  match findPurchase db purchaseId with
  | none => { db := db, result := .error (.notFound "Purchase not found."), trace := [] }
  | some purchase0 =>
    match findProduct db purchase0.productId with
    | none => { db := db, result := .error (.notFound "Product not found."), trace := [] }
    | some product0 =>
      let product1 : Product :=
        { product0 with stockQuantity := product0.stockQuantity - purchase0.quantityPurchased }
      let product2 : Product :=
        if truthyInt r.quantity then
          { product1 with stockQuantity := product1.stockQuantity + r.quantity.getD 0 }
        else
          { product1 with stockQuantity := product1.stockQuantity + purchase0.quantityPurchased }
      let purchase1 : Purchase :=
        if truthyInt r.quantity then { purchase0 with quantityPurchased := r.quantity.getD 0 }
        else purchase0
      let purchase2 : Purchase :=
        if truthyInt r.costPrice then { purchase1 with unitCostTZS := r.costPrice.getD 0 }
        else purchase1
      let product3 : Product :=
        if truthyInt r.costPrice then { product2 with costPriceTZS := r.costPrice.getD 0 }
        else product2
      let purchase3 : Purchase :=
        if truthyStr r.supplier then { purchase2 with supplierText := r.supplier.getD "" }
        else purchase2
      let purchase4 : Purchase :=
        { purchase3 with totalCostTZS := purchase3.quantityPurchased * purchase3.unitCostTZS }
      if !(purchaseRowValid purchase4) then
        { db := db, result := .error (.server "Failed to update purchase."), trace := [] }
      else if !(productValid product3) then
        { db := db, result := .error (.server "Failed to update purchase."), trace := [] }
      else
        let db1 := savePurchase db purchase4
        let db2 := saveProduct db1 product3
        let db3 := createAuditLog fx db2
          { userId := userId, action := "update_purchase",
            entityType := "purchase", entityId := some purchase4.prid }
        { db := db3, result := .ok purchase4,
          trace := [Ev.rowInsert, Ev.productSave, Ev.auditWrite, Ev.commitTxn] }

/-- `deleteSale` (controllers/saleController.js, lines 425-477).
Source order: `Sale.findById`, `Product.findById` (a dangling product is
tolerated — the restore is skipped), the stock restore plus
`product.save` (schema validation), the audit write,
`Sale.findByIdAndDelete`, the commit. -/
def deleteSale (fx : SideFx) (db : DB) (userId : Nat) (saleId : Nat) :
    Outcome Unit :=
  match findSale db saleId with
  | none => { db := db, result := .error (.notFound "Sale not found."), trace := [] }
  | some sale =>
    match findProduct db sale.productId with
    | some product =>
      let product1 : Product :=
        { product with stockQuantity := product.stockQuantity + sale.quantitySold }
      if !(productValid product1) then
        { db := db, result := .error (.server "Failed to delete sale."), trace := [] }
      else
        let db1 := saveProduct db product1
        let db2 := createAuditLog fx db1
          { userId := userId, action := "delete_sale",
            entityType := "sale", entityId := some sale.sid }
        let db3 := removeSale db2 saleId
        { db := db3, result := .ok (), trace := [Ev.productSave, Ev.auditWrite, Ev.commitTxn] }
    | none =>
      let db2 := createAuditLog fx db
        { userId := userId, action := "delete_sale",
          entityType := "sale", entityId := some sale.sid }
      let db3 := removeSale db2 saleId
      { db := db3, result := .ok (), trace := [Ev.auditWrite, Ev.commitTxn] }

/-- `deletePurchase` (purchase controller, lines 734-786).  Source
order: `Purchase.findById`, `Product.findById` (dangling tolerated), the
unconditional stock subtraction plus `product.save` — whose schema
validation throws when the subtraction would leave a negative counter,
landing in the catch-all which aborts the transaction — the audit write,
`Purchase.findByIdAndDelete`, the commit. -/
def deletePurchase (fx : SideFx) (db : DB) (userId : Nat) (purchaseId : Nat) :
    Outcome Unit :=
  match findPurchase db purchaseId with
  | none => { db := db, result := .error (.notFound "Purchase not found."), trace := [] }
  | some purchase =>
    match findProduct db purchase.productId with
    | some product =>
      let product1 : Product :=
        { product with stockQuantity := product.stockQuantity - purchase.quantityPurchased }
      if !(productValid product1) then
        { db := db, result := .error (.server "Failed to delete purchase."), trace := [] }
      else
        let db1 := saveProduct db product1
        let db2 := createAuditLog fx db1
          { userId := userId, action := "delete_purchase",
            entityType := "purchase", entityId := some purchase.prid }
        let db3 := removePurchase db2 purchaseId
        { db := db3, result := .ok (), trace := [Ev.productSave, Ev.auditWrite, Ev.commitTxn] }
    | none =>
      let db2 := createAuditLog fx db
        { userId := userId, action := "delete_purchase",
          entityType := "purchase", entityId := some purchase.prid }
      let db3 := removePurchase db2 purchaseId
      { db := db3, result := .ok (), trace := [Ev.auditWrite, Ev.commitTxn] }

/-- Replay of the committed history for one product: the sum of
`quantityPurchased` over its purchase rows minus the sum of
`quantitySold` over its sale rows, from an initial stock of 0. -/
def replayStock (db : DB) (pid : Nat) : ℤ :=
  ((db.purchases.filter (fun pr => pr.productId == pid)).map Purchase.quantityPurchased).sum
    - ((db.sales.filter (fun s => s.productId == pid)).map Sale.quantitySold).sum

/-- A fully-populated createSale request body. -/
def saleReqOf (pid : Nat) (q price : ℤ) (pm ps : String) : CreateSaleReq :=
  { productId := some pid, quantity := some q, paymentMethod := some pm,
    paymentStatus := some ps, sellingPrice := some price }

/-- The sale row a successful `createSale` writes: fresh id, the
snapshot of the product, the requested quantity and price, the computed
total. -/
def mkSaleRow (db : DB) (u t pid : Nat) (q price : ℤ) (pm ps : String)
    (p : Product) : Sale :=
  { sid := db.nextId, productId := pid, snapName := p.name, snapSku := p.sku,
    quantitySold := q, unitPriceAtSaleTZS := price, totalPriceTZS := q * price,
    paymentMethod := pm, paymentStatus := ps, soldBy := u, date := t }

/-- `n` quantity-1 `createSale` calls executed back to back: the
serialization of `n` concurrent requests whose atomic scopes the store
commits one after another (the concurrency contract of the transaction
primitive).  Returns the final store and the list of per-call results. -/
def runUnitSales (fx : SideFx) (userId : Nat) (now : Nat) (pid : Nat)
    (pm : String) (price : ℤ) : Nat → DB → DB × List (Except ApiError Sale)
  | 0, db => (db, [])
  | n + 1, db =>
    let o := createSale fx db userId now (saleReqOf pid 1 price pm "paid")
    let rec0 := runUnitSales fx userId now pid pm price n o.db
    (rec0.1, o.result :: rec0.2)

/-- Whether a call result is a success. -/
def isOk {α : Type} : Except ApiError α → Bool
  | .ok _ => true
  | .error _ => false

/-- Whether a call result is the insufficient-stock rejection. -/
def isInsufficient {α : Type} : Except ApiError α → Bool
  | .error (.insufficientStock _ _) => true
  | _ => false

/-- Date-range query parameters of the report endpoints.  The
end-of-day adjustment the controller applies to `endDate` is absorbed
into the bound itself. -/
structure DateRange where
  startDate : Option Nat
  endDate : Option Nat
deriving Repr, DecidableEq

/-- The `$match` date condition: when neither bound is supplied the
filter is omitted, which the two optional bounds model directly. -/
def inRange (dr : DateRange) (d : Nat) : Bool :=
  (match dr.startDate with | none => true | some s => s ≤ d) &&
  (match dr.endDate with | none => true | some e => d ≤ e)

/-- The `totals` object of the sales-report response, mirroring the
fields of the response literal (reports controller, lines 935-966).
The literal carries exactly these four fields. -/
structure SalesTotals where
  totalRevenue : ℤ
  totalOrders : Nat
  totalQuantity : ℤ
  averageOrderValue : ℚ
deriving Repr, DecidableEq

/-- Result row of the separate pending-sales aggregate pass. -/
structure PendingTotals where
  totalPending : ℤ
  pendingOrders : Nat
deriving Repr, DecidableEq

/-- One bucket of the sales timeline. -/
structure TimelinePoint where
  period : String
  revenue : ℤ
  orders : Nat
  quantity : ℤ
deriving Repr, DecidableEq

/-- One row of the top-products aggregation. -/
structure TopProduct where
  productId : Nat
  name : String
  sku : String
  quantity : ℤ
  revenue : ℤ
  orders : Nat
deriving Repr, DecidableEq

/-- One row of the payment-method breakdown. -/
structure PaymentMethodPoint where
  method : String
  count : Nat
  total : ℤ
deriving Repr, DecidableEq

/-- The `data` value of the sales-report response. -/
structure SalesReport where
  totals : SalesTotals
  timeline : List TimelinePoint
  topProducts : List TopProduct
  paymentMethods : List PaymentMethodPoint
deriving Repr, DecidableEq

/-- The rows the paid `$match` stage selects. -/
def paidSalesInRange (db : DB) (dr : DateRange) : List Sale :=
  db.sales.filter (fun s => inRange dr s.date && s.paymentStatus == "paid")

/-- The rows the pending `$match` stage selects. -/
def pendingSalesInRange (db : DB) (dr : DateRange) : List Sale :=
  db.sales.filter (fun s => inRange dr s.date && s.paymentStatus == "pending")

/-- The second, independent aggregate pass of `getSalesReport` over the
`paymentStatus = pending` rows of the same range (reports controller,
lines 859-889).  The controller attaches its two numbers to a local
`totals` object which the response literal then rebuilds without them. -/
def salesReportPendingTotals (db : DB) (dr : DateRange) : PendingTotals :=
  let pending := pendingSalesInRange db dr
  { totalPending := (pending.map Sale.totalPriceTZS).sum,
    pendingOrders := pending.length }

/-- The timeline aggregation: group the paid rows by the calendar
bucket of their date and sort the buckets ascending.  `fmt` stands for
the `$dateToString` format the `groupBy` parameter selects (day, ISO
week, or month); calendar rendering itself is a store built-in, so it
enters the model as a parameter. -/
def timelineOf (paid : List Sale) (fmt : Nat → String) : List TimelinePoint :=
  let keys := List.insertionSort (fun a b => a ≤ b) ((paid.map (fun s => fmt s.date)).dedup)
  keys.map (fun k =>
    let g := paid.filter (fun s => fmt s.date == k)
    { period := k, revenue := (g.map Sale.totalPriceTZS).sum, orders := g.length,
      quantity := (g.map Sale.quantitySold).sum })

/-- The top-products aggregation: group the paid rows by product, take
name and sku from the first row of each group (`$first`), sort by
revenue descending, keep ten. -/
def topProductsOf (paid : List Sale) : List TopProduct :=
  let pids := (paid.map Sale.productId).dedup
  let groups : List TopProduct := pids.map (fun pid =>
    let g := paid.filter (fun s => s.productId == pid)
    { productId := pid,
      name := ((g.head?).map Sale.snapName).getD "",
      sku := ((g.head?).map Sale.snapSku).getD "",
      quantity := (g.map Sale.quantitySold).sum,
      revenue := (g.map Sale.totalPriceTZS).sum,
      orders := g.length })
  (List.insertionSort (fun a b => b.revenue ≤ a.revenue) groups).take 10

/-- The payment-method breakdown over the paid rows. -/
def paymentMethodsOf (paid : List Sale) : List PaymentMethodPoint :=
  ((paid.map Sale.paymentMethod).dedup).map (fun m =>
    let g := paid.filter (fun s => s.paymentMethod == m)
    { method := m, count := g.length, total := (g.map Sale.totalPriceTZS).sum })

/-- `getSalesReport` (reports controller, lines 814-974): the paid-only
aggregate pass, the timeline, the top products, the payment-method
breakdown, and the response literal whose `totals` carries revenue,
orders, quantity and the zero-guarded average — and nothing else. -/
def getSalesReport (db : DB) (dr : DateRange) (fmt : Nat → String) : SalesReport :=
  let paid := paidSalesInRange db dr
  let totalRevenue := (paid.map Sale.totalPriceTZS).sum
  let totalOrders := paid.length
  let totalQuantity := (paid.map Sale.quantitySold).sum
  { totals :=
      { totalRevenue := totalRevenue, totalOrders := totalOrders,
        totalQuantity := totalQuantity,
        averageOrderValue :=
          if 0 < totalOrders then mkRat totalRevenue totalOrders else 0 },
    timeline := timelineOf paid fmt,
    topProducts := topProductsOf paid,
    paymentMethods := paymentMethodsOf paid }

/-- Result row of the top-product-today aggregation. -/
structure TopToday where
  productId : Nat
  name : String
  sku : String
  quantity : ℤ
deriving Repr, DecidableEq

/-- One point of the thirty-day revenue series. -/
structure ChartPoint where
  date : String
  revenue : ℤ
deriving Repr, DecidableEq

/-- The `dashboard` value of the dashboard-summary response. -/
structure Dashboard where
  todayRevenue : ℤ
  todayOrders : Nat
  topProductToday : Option TopToday
  lowStockCount : Nat
  pendingPayments : Nat
  monthlyRevenueChart : List ChartPoint
deriving Repr, DecidableEq

/-- The top-product-today aggregation of the dashboard: group the
current-day sales by product (no paymentStatus condition), take name
and sku from the first row of each group (`$first`), sum quantities. -/
def topTodayGroups (db : DB) (todayStart tomorrowStart : Nat) : List TopToday :=
  let todays := db.sales.filter (fun s => todayStart ≤ s.date && s.date < tomorrowStart)
  ((todays.map Sale.productId).dedup).map (fun pid =>
    let g := todays.filter (fun s => s.productId == pid)
    { productId := pid,
      name := ((g.head?).map Sale.snapName).getD "",
      sku := ((g.head?).map Sale.snapSku).getD "",
      quantity := (g.map Sale.quantitySold).sum })

/-- `getDashboardSummary` (reports controller, lines 1221-1300).  The
calendar-day window `[todayStart, tomorrowStart)` and the thirty-day
lower bound are computed by the handler from the clock; they enter the
model as the three boundary parameters, and `dayFmt` stands for the
day-format `$dateToString`.  Notably, none of the three sale
aggregations carries a `paymentStatus` condition: the today pass, the
top-product pass and the thirty-day series run over all sales in their
date window, paid and pending alike. -/
def getDashboardSummary (db : DB) (todayStart tomorrowStart thirtyDaysAgo : Nat)
    (dayFmt : Nat → String) : Dashboard :=
  let todays := db.sales.filter (fun s => todayStart ≤ s.date && s.date < tomorrowStart)
  let sorted := List.insertionSort (fun a b => b.quantity ≤ a.quantity)
    (topTodayGroups db todayStart tomorrowStart)
  let recent := db.sales.filter (fun s => thirtyDaysAgo ≤ s.date)
  let keys := List.insertionSort (fun a b => a ≤ b) ((recent.map (fun s => dayFmt s.date)).dedup)
  { todayRevenue := (todays.map Sale.totalPriceTZS).sum,
    todayOrders := todays.length,
    topProductToday := sorted.head?,
    lowStockCount := (db.products.filter (fun p => p.stockQuantity ≤ 5)).length,
    pendingPayments := (db.sales.filter (fun s => s.paymentStatus == "pending")).length,
    monthlyRevenueChart := keys.map (fun k =>
      { date := k,
        revenue := ((recent.filter (fun s => dayFmt s.date == k)).map Sale.totalPriceTZS).sum }) }

end Kamcorp

deriving instance DecidableEq for Except

namespace Kamcorp

/-- The quiet side-effect environment: neither channel fails. -/
def fxNone : SideFx := { auditFails := false, notifFails := false }

/-- The scenario product P: created through the catalog with default
stock 0, cost 100, selling price 150. -/
def productP : Product :=
  { pid := 1, name := "P", sku := "SKU-1", category := "general",
    unitPriceTZS := 150, costPriceTZS := 100, stockQuantity := 0 }

/-- Initial store: the catalog holds P alone, one admin user, fresh row
ids from 100. -/
def dbP : DB :=
  { products := [productP], sales := [], purchases := [], auditLogs := [],
    notifications := [], admins := [7], nextId := 100 }

/-- Step 1: purchase of 10 units of P at cost 100 from Acme. -/
def step1 : Outcome Purchase :=
  createPurchase fxNone dbP 3 1
    { productId := some 1, quantity := some 10, costPrice := some 100,
      supplier := some "Acme" }

/-- Step 2: sale of 3 units of P at price 150 (cash, paid). -/
def step2 : Outcome Sale :=
  createSale fxNone step1.db 3 2
    { productId := some 1, quantity := some 3, paymentMethod := some "cash",
      paymentStatus := some "paid", sellingPrice := some 150 }

/-- Step 3: a price-only correction of the step-2 sale: the request
body carries `sellingPrice` 200 and no other field. -/
def step3 : Outcome Sale :=
  updateSale fxNone step2.db 3 101
    { quantity := none, sellingPrice := some 200, paymentMethod := none,
      paymentStatus := none }

/-- Step B: a further purchase of 5 units at cost 90, bringing the
stock of P to 12 (the state of spec scenario B). -/
def stepB : Outcome Purchase :=
  createPurchase fxNone step2.db 3 3
    { productId := some 1, quantity := some 5, costPrice := some 90,
      supplier := some "Acme" }

/-- Over-requesting sale against scenario-B stock: 20 units against 12. -/
def stepC : Outcome Sale :=
  createSale fxNone stepB.db 3 4
    { productId := some 1, quantity := some 20, paymentMethod := some "cash",
      paymentStatus := some "paid", sellingPrice := some 150 }

/-- A committed paid sale of 1000 on day 15. -/
def paidRow : Sale :=
  { sid := 201, productId := 1, snapName := "P", snapSku := "SKU-1",
    quantitySold := 2, unitPriceAtSaleTZS := 500, totalPriceTZS := 1000,
    paymentMethod := "cash", paymentStatus := "paid", soldBy := 3, date := 15 }

/-- A committed pending sale of 500 on day 16. -/
def pendingRow : Sale :=
  { sid := 202, productId := 1, snapName := "P", snapSku := "SKU-1",
    quantitySold := 1, unitPriceAtSaleTZS := 500, totalPriceTZS := 500,
    paymentMethod := "mobile", paymentStatus := "pending", soldBy := 3, date := 16 }

/-- The committed history without the pending row. -/
def dbReportsPaidOnly : DB :=
  { products := [productP], sales := [paidRow], purchases := [], auditLogs := [],
    notifications := [], admins := [7], nextId := 300 }

/-- A committed history for the report queries: the paid sale of 1000
on day 15 and the pending sale of 500 on day 16, catalog holding P. -/
def dbReports : DB :=
  { dbReportsPaidOnly with sales := dbReportsPaidOnly.sales ++ [pendingRow] }

/-- The total quantity of one product sold inside the window
`[t0, t1)` — the reference aggregate the top-product-today entry is
compared against. -/
def soldTodayQty (db : DB) (t0 t1 : Nat) (pid : Nat) : ℤ :=
  ((db.sales.filter (fun s => s.productId == pid && (t0 ≤ s.date && s.date < t1))).map
    Sale.quantitySold).sum

/-- A small store for the concurrency witness: one product with stock 3. -/
def dbSmall : DB :=
  { products := [{ productP with stockQuantity := 3 }], sales := [], purchases := [],
    auditLogs := [], notifications := [], admins := [7], nextId := 100 }

end Kamcorp

namespace Kamcorp

theorem find?_pid_replace {l : List Product} {pid : Nat} {p p' : Product}
    (h : l.find? (fun q => q.pid == pid) = some p) (hid : p'.pid = pid) :
    (l.map (fun q => if q.pid == p'.pid then p' else q)).find? (fun q => q.pid == pid)
      = some p' := by
  induction l with
  | nil => simp at h
  | cons a l ih =>
    by_cases ha : a.pid = pid
    · have hb : (a.pid == p'.pid) = true := by
        rw [hid]; exact beq_iff_eq.mpr ha
      have hbp : (p'.pid == pid) = true := beq_iff_eq.mpr hid
      simp [List.find?, hb, hbp]
    · have hb : (a.pid == pid) = false := by simpa using ha
      have hb' : (a.pid == p'.pid) = false := by rw [hid]; exact hb
      have h' : l.find? (fun q => q.pid == pid) = some p := by
        simpa [List.find?, hb] using h
      simpa [List.find?, hb, hb'] using ih h'

theorem findProduct_saveProduct {db : DB} {pid : Nat} {p : Product} (p' : Product)
    (h : findProduct db pid = some p) (hid : p'.pid = pid) :
    findProduct (saveProduct db p') pid = some p' :=
  find?_pid_replace h hid

theorem findProduct_pid {db : DB} {pid : Nat} {p : Product}
    (h : findProduct db pid = some p) : p.pid = pid := by
  have := List.find?_some h
  simpa using this

@[simp] theorem createAuditLog_products (fx : SideFx) (db : DB) (e : AuditEntry) :
    (createAuditLog fx db e).products = db.products := by
  unfold createAuditLog; split <;> rfl

@[simp] theorem createAuditLog_sales (fx : SideFx) (db : DB) (e : AuditEntry) :
    (createAuditLog fx db e).sales = db.sales := by
  unfold createAuditLog; split <;> rfl

@[simp] theorem createAuditLog_purchases (fx : SideFx) (db : DB) (e : AuditEntry) :
    (createAuditLog fx db e).purchases = db.purchases := by
  unfold createAuditLog; split <;> rfl

@[simp] theorem createAuditLog_nextId (fx : SideFx) (db : DB) (e : AuditEntry) :
    (createAuditLog fx db e).nextId = db.nextId := by
  unfold createAuditLog; split <;> rfl

@[simp] theorem createLowStockNotification_products (fx : SideFx) (db : DB) (p : Product) :
    (createLowStockNotification fx db p).products = db.products := by
  unfold createLowStockNotification; split <;> rfl

@[simp] theorem createLowStockNotification_sales (fx : SideFx) (db : DB) (p : Product) :
    (createLowStockNotification fx db p).sales = db.sales := by
  unfold createLowStockNotification; split <;> rfl

@[simp] theorem createLowStockNotification_purchases (fx : SideFx) (db : DB) (p : Product) :
    (createLowStockNotification fx db p).purchases = db.purchases := by
  unfold createLowStockNotification; split <;> rfl

@[simp] theorem createLowStockNotification_nextId (fx : SideFx) (db : DB) (p : Product) :
    (createLowStockNotification fx db p).nextId = db.nextId := by
  unfold createLowStockNotification; split <;> rfl

@[simp] theorem createSaleNotifications_products (fx : SideFx) (db : DB) (s : Sale) (n : String) :
    (createSaleNotifications fx db s n).products = db.products := by
  unfold createSaleNotifications; split <;> rfl

@[simp] theorem createSaleNotifications_sales (fx : SideFx) (db : DB) (s : Sale) (n : String) :
    (createSaleNotifications fx db s n).sales = db.sales := by
  unfold createSaleNotifications; split <;> rfl

@[simp] theorem createSaleNotifications_purchases (fx : SideFx) (db : DB) (s : Sale) (n : String) :
    (createSaleNotifications fx db s n).purchases = db.purchases := by
  unfold createSaleNotifications; split <;> rfl

@[simp] theorem createSaleNotifications_nextId (fx : SideFx) (db : DB) (s : Sale) (n : String) :
    (createSaleNotifications fx db s n).nextId = db.nextId := by
  unfold createSaleNotifications; split <;> rfl

@[simp] theorem createPurchaseNotifications_products (fx : SideFx) (db : DB) (pr : Purchase) (n : String) :
    (createPurchaseNotifications fx db pr n).products = db.products := by
  unfold createPurchaseNotifications; split <;> rfl

@[simp] theorem createPurchaseNotifications_sales (fx : SideFx) (db : DB) (pr : Purchase) (n : String) :
    (createPurchaseNotifications fx db pr n).sales = db.sales := by
  unfold createPurchaseNotifications; split <;> rfl

@[simp] theorem createPurchaseNotifications_purchases (fx : SideFx) (db : DB) (pr : Purchase) (n : String) :
    (createPurchaseNotifications fx db pr n).purchases = db.purchases := by
  unfold createPurchaseNotifications; split <;> rfl

@[simp] theorem createPurchaseNotifications_nextId (fx : SideFx) (db : DB) (pr : Purchase) (n : String) :
    (createPurchaseNotifications fx db pr n).nextId = db.nextId := by
  unfold createPurchaseNotifications; split <;> rfl

@[simp] theorem findProduct_createAuditLog (fx : SideFx) (db : DB) (e : AuditEntry) (pid : Nat) :
    findProduct (createAuditLog fx db e) pid = findProduct db pid := by
  unfold findProduct; rw [createAuditLog_products]

@[simp] theorem findProduct_createLowStockNotification (fx : SideFx) (db : DB) (p : Product) (pid : Nat) :
    findProduct (createLowStockNotification fx db p) pid = findProduct db pid := by
  unfold findProduct; rw [createLowStockNotification_products]

@[simp] theorem findProduct_createSaleNotifications (fx : SideFx) (db : DB) (s : Sale) (n : String) (pid : Nat) :
    findProduct (createSaleNotifications fx db s n) pid = findProduct db pid := by
  unfold findProduct; rw [createSaleNotifications_products]

@[simp] theorem findProduct_createPurchaseNotifications (fx : SideFx) (db : DB) (pr : Purchase) (n : String) (pid : Nat) :
    findProduct (createPurchaseNotifications fx db pr n) pid = findProduct db pid := by
  unfold findProduct; rw [createPurchaseNotifications_products]

@[simp] theorem saveProduct_sales (db : DB) (p : Product) :
    (saveProduct db p).sales = db.sales := rfl

@[simp] theorem saveProduct_purchases (db : DB) (p : Product) :
    (saveProduct db p).purchases = db.purchases := rfl

@[simp] theorem saveProduct_nextId (db : DB) (p : Product) :
    (saveProduct db p).nextId = db.nextId := rfl

/-- Success characterization of `createSale`: with the product present
and schema-valid, a quantity of at least one not exceeding the stock, a
positive price and enum-valid payment fields, the call commits — the
sale row (snapshot, computed total, fresh id) is appended, the stock
counter drops by the quantity, and the purchase collection is
untouched. -/
theorem createSale_ok (fx : SideFx) (db : DB) (u t pid : Nat) (q price : ℤ)
    (pm ps : String) (p : Product)
    (hp : findProduct db pid = some p)
    (hv : productValid p = true)
    (hq : 1 ≤ q) (hstock : q ≤ p.stockQuantity) (hprice : 0 < price)
    (hpm : pm = "cash" ∨ pm = "mobile" ∨ pm = "card")
    (hps : ps = "paid" ∨ ps = "pending") :
    (createSale fx db u t (saleReqOf pid q price pm ps)).result =
        .ok (mkSaleRow db u t pid q price pm ps p) ∧
      (createSale fx db u t (saleReqOf pid q price pm ps)).db.sales =
        db.sales ++ [mkSaleRow db u t pid q price pm ps p] ∧
      (createSale fx db u t (saleReqOf pid q price pm ps)).db.purchases = db.purchases ∧
      (createSale fx db u t (saleReqOf pid q price pm ps)).db.nextId = db.nextId + 1 ∧
      findProduct (createSale fx db u t (saleReqOf pid q price pm ps)).db pid =
        some { p with stockQuantity := p.stockQuantity - q } := by
  have hq0 : (q == 0) = false := by
    simp only [beq_eq_false_iff_ne]; omega
  have hprice0 : (price == 0) = false := by
    simp only [beq_eq_false_iff_ne]; omega
  have hpm0 : (pm == "") = false := by
    rcases hpm with h | h | h <;> simp [h]
  have hrowValid : saleRowValid (mkSaleRow db u t pid q price pm ps p) = true := by
    have h0p : (0 : ℤ) ≤ price := le_of_lt hprice
    have h0t : (0 : ℤ) ≤ q * price := mul_nonneg (by omega) h0p
    rcases hpm with h1 | h1 | h1 <;> rcases hps with h2 | h2 <;>
      simp [saleRowValid, mkSaleRow, h1, h2, hq, h0p, h0t]
  have hpv : productValid { p with stockQuantity := p.stockQuantity - q } = true := by
    simp only [productValid, Bool.and_eq_true, decide_eq_true_eq] at hv ⊢
    refine ⟨⟨hv.1.1, hv.1.2⟩, by omega⟩
  have hnotlt : ¬(p.stockQuantity < q) := not_lt.mpr hstock
  have hnotneg : ¬(price < 0) := by omega
  simp only [mkSaleRow] at hrowValid
  unfold createSale
  simp only [saleReqOf, truthyId, truthyInt, truthyStr, hq0, hprice0, hpm0,
    Bool.not_false, Bool.and_self, Bool.and_true, Bool.true_and, Bool.not_true,
    Bool.false_eq_true, if_false, hp, hnotlt, if_neg, hnotneg, Option.getD_some]
  rw [if_neg (by simp [hrowValid]), if_neg (by simp [hpv])]
  refine ⟨rfl, ?_, ?_, ?_, ?_⟩
  · split <;> simp [mkSaleRow]
  · split <;> simp
  · split <;> simp
  · have hid : p.pid = pid := findProduct_pid hp
    have hstep :=
      findProduct_saveProduct ({ p with stockQuantity := p.stockQuantity - q }) hp hid
    split <;> simpa [findProduct, saveProduct, mkSaleRow] using hstep

/-- Insufficient-stock characterization of `createSale`: with truthy
fields and the product present, a request above the stock counter is
rejected before any write, carrying the available and requested
quantities, and the handler returns the store unchanged. -/
theorem createSale_insufficient (fx : SideFx) (db : DB) (u t pid : Nat) (q price : ℤ)
    (pm ps : String) (p : Product)
    (hp : findProduct db pid = some p)
    (hq0 : q ≠ 0) (hprice0 : price ≠ 0) (hpm0 : pm ≠ "")
    (hlt : p.stockQuantity < q) :
    createSale fx db u t (saleReqOf pid q price pm ps) =
      { db := db, result := .error (.insufficientStock p.stockQuantity q),
        trace := [] } := by
  have h1 : (q == 0) = false := by simpa using hq0
  have h2 : (price == 0) = false := by simpa using hprice0
  have h3 : (pm == "") = false := by simpa using hpm0
  unfold createSale
  simp [saleReqOf, truthyId, truthyInt, truthyStr, h1, h2, h3, hp, hlt]

/-- C4: for every TransactionRecorder operation and every error outcome
(not-found, insufficient stock, validation, or any failure the catch-all
turns into a generic 500 after aborting the transaction), the store the
handler leaves behind is exactly the pre-call store: no partial row
insert, stock change, audit or notification write persists. -/
theorem C4_error_outcomes_preserve_state :
    (∀ (fx : SideFx) (db : DB) (u t : Nat) (r : CreateSaleReq) (e : ApiError),
      (createSale fx db u t r).result = .error e → (createSale fx db u t r).db = db) ∧
    (∀ (fx : SideFx) (db : DB) (u t : Nat) (r : CreatePurchaseReq) (e : ApiError),
      (createPurchase fx db u t r).result = .error e → (createPurchase fx db u t r).db = db) ∧
    (∀ (fx : SideFx) (db : DB) (u i : Nat) (r : UpdateSaleReq) (e : ApiError),
      (updateSale fx db u i r).result = .error e → (updateSale fx db u i r).db = db) ∧
    (∀ (fx : SideFx) (db : DB) (u i : Nat) (r : UpdatePurchaseReq) (e : ApiError),
      (updatePurchase fx db u i r).result = .error e → (updatePurchase fx db u i r).db = db) ∧
    (∀ (fx : SideFx) (db : DB) (u i : Nat) (e : ApiError),
      (deleteSale fx db u i).result = .error e → (deleteSale fx db u i).db = db) ∧
    (∀ (fx : SideFx) (db : DB) (u i : Nat) (e : ApiError),
      (deletePurchase fx db u i).result = .error e → (deletePurchase fx db u i).db = db) := by
  refine ⟨?_, ?_, ?_, ?_, ?_, ?_⟩
  · intro fx db u t r e
    unfold createSale
    simp only []
    repeat' split
    all_goals intro h
    all_goals first | rfl | simp_all
  · intro fx db u t r e
    unfold createPurchase
    simp only []
    repeat' split
    all_goals intro h
    all_goals first | rfl | simp_all
  · intro fx db u i r e
    unfold updateSale
    simp only []
    repeat' split
    all_goals intro h
    all_goals first | rfl | simp_all
  · intro fx db u i r e
    unfold updatePurchase
    simp only []
    repeat' split
    all_goals intro h
    all_goals first | rfl | simp_all
  · intro fx db u i e
    unfold deleteSale
    simp only []
    repeat' split
    all_goals intro h
    all_goals first | rfl | simp_all
  · intro fx db u i e
    unfold deletePurchase
    simp only []
    repeat' split
    all_goals intro h
    all_goals first | rfl | simp_all

/-- Witness for C4, the spec scenario C: against scenario-B stock 12, a
20-unit sale is rejected with available 12 and requested 20, and the
store — in particular the stock counter — is exactly what it was. -/
theorem C4_error_outcomes_preserve_state_witness :
    stepC.result = .error (.insufficientStock 12 20) ∧
    stepC.db = stepB.db ∧
    (findProduct stepB.db 1).map Product.stockQuantity = some 12 :=
  ⟨by decide,
   C4_error_outcomes_preserve_state.1 fxNone stepB.db 3 4
     { productId := some 1, quantity := some 20, paymentMethod := some "cash",
       paymentStatus := some "paid", sellingPrice := some 150 }
     (.insufficientStock 12 20) (by decide),
   by decide⟩

/-- C5: serializing N concurrent quantity-1 `createSale` calls against
a product with stock S — the serialization the atomic scope of the
store's transaction primitive enforces, so that no interleaving lets
two calls both pass the stock-sufficiency check — yields exactly
min(N,S) successes, the remaining N − min(N,S) calls fail with the
insufficient-stock rejection, and the final stock counter reads
S − min(N,S). -/
theorem C5_unit_sales_counting (fx : SideFx) (u t pid : Nat) (pm : String)
    (price : ℤ) (n S : Nat) (db : DB) (p : Product)
    (hp : findProduct db pid = some p) (hv : productValid p = true)
    (hS : p.stockQuantity = (S : ℤ)) (hprice : 0 < price)
    (hpm : pm = "cash" ∨ pm = "mobile" ∨ pm = "card") :
    ((runUnitSales fx u t pid pm price n db).2.filter (fun r => isOk r)).length
        = min n S ∧
      ((runUnitSales fx u t pid pm price n db).2.filter
          (fun r => isInsufficient r)).length = n - min n S ∧
      (findProduct (runUnitSales fx u t pid pm price n db).1 pid).map
          Product.stockQuantity = some (((S - min n S : ℕ) : ℤ)) := by
  induction n generalizing db p S with
  | zero =>
    simp [runUnitSales, hp, hS]
  | succ n ih =>
    have hpm0 : pm ≠ "" := by rcases hpm with h | h | h <;> simp [h]
    cases S with
    | zero =>
      have hlt : p.stockQuantity < 1 := by rw [hS]; norm_num
      have herr := createSale_insufficient fx db u t pid 1 price pm "paid" p hp
        (by omega) (by omega) hpm0 hlt
      obtain ⟨h1, h2, h3⟩ := ih 0 db p hp hv hS
      refine ⟨?_, ?_, ?_⟩
      · simp only [runUnitSales, herr] at h1 ⊢
        simpa [isOk] using h1
      · simp only [runUnitSales, herr, Nat.min_zero] at h2 ⊢
        simp [isInsufficient] at h2 ⊢
        omega
      · simp only [runUnitSales, herr] at h3 ⊢
        simpa using h3
    | succ S =>
      have hok := createSale_ok fx db u t pid 1 price pm "paid" p hp hv (by omega)
        (by rw [hS]; omega) hprice hpm (Or.inl rfl)
      obtain ⟨hres, hsales, hpurch, hnext, hfind⟩ := hok
      have hv' : productValid { p with stockQuantity := p.stockQuantity - 1 } = true := by
        simp only [productValid, Bool.and_eq_true, decide_eq_true_eq] at hv ⊢
        refine ⟨⟨hv.1.1, hv.1.2⟩, by rw [hS]; omega⟩
      have hS' : ({ p with stockQuantity := p.stockQuantity - 1 } : Product).stockQuantity
          = (S : ℤ) := by
        simp only []
        rw [hS]; push_cast; ring
      obtain ⟨h1, h2, h3⟩ := ih S (createSale fx db u t (saleReqOf pid 1 price pm "paid")).db
        ({ p with stockQuantity := p.stockQuantity - 1 }) hfind hv' hS'
      have hmin : min (n + 1) (S + 1) = min n S + 1 := Nat.succ_min_succ n S
      refine ⟨?_, ?_, ?_⟩
      · simp only [runUnitSales, hres] at h1 ⊢
        simp [isOk, hmin] at h1 ⊢
        omega
      · simp only [runUnitSales, hres] at h2 ⊢
        simp [isInsufficient, hmin] at h2 ⊢
        omega
      · simp only [runUnitSales, hres, hmin, Nat.succ_sub_succ] at h3 ⊢
        exact h3

/-- Witness for C5: five serialized unit sales against stock 3 give
three successes, two insufficient-stock rejections, final stock 0. -/
theorem C5_unit_sales_counting_witness :
    ((runUnitSales fxNone 3 9 1 "cash" 150 5 dbSmall).2.filter
        (fun r => isOk r)).length = min 5 3 ∧
      ((runUnitSales fxNone 3 9 1 "cash" 150 5 dbSmall).2.filter
          (fun r => isInsufficient r)).length = 5 - min 5 3 ∧
      (findProduct (runUnitSales fxNone 3 9 1 "cash" 150 5 dbSmall).1 1).map
          Product.stockQuantity = some (((3 - min 5 3 : ℕ) : ℤ)) :=
  C5_unit_sales_counting fxNone 3 9 1 "cash" 150 5 3 dbSmall
    ({ productP with stockQuantity := 3 }) (by decide) (by decide) (by decide)
    (by decide) (Or.inl rfl)

/-- C1: the replay invariant `stockQuantity = Σ purchased − Σ sold`
holds through `createPurchase` and `createSale` but is broken by a
successful `updateSale` whose body omits the quantity: after buying 10,
selling 3 (stock 7, replay 7) and then correcting only the selling
price of that sale, the stored stock reads 10 while the committed
history still replays to 7.  The restore-then-reapply sequence of
`updateSale` restores the old quantity to the counter but reapplies it
only inside `if (quantity)`; the symmetric `else` branch that
`updatePurchase` has is missing. -/
theorem C1_invariant_broken_by_updateSale :
    isOk step1.result = true ∧ isOk step2.result = true ∧ isOk step3.result = true ∧
    (findProduct step1.db 1).map Product.stockQuantity = some 10 ∧
    replayStock step1.db 1 = 10 ∧
    (findProduct step2.db 1).map Product.stockQuantity = some 7 ∧
    replayStock step2.db 1 = 7 ∧
    (findProduct step3.db 1).map Product.stockQuantity = some 10 ∧
    replayStock step3.db 1 = 7 := by
  decide

/-- C3: an `updateSale` that omits `quantity` (here: changing only the
selling price) must leave the stock counter unchanged, but the code
increments it by the old sold quantity: stock 7 before the correction,
10 after it, while the sale row keeps quantity 3.  The updated total is
recomputed correctly; the stock effect contradicts the claim. -/
theorem C3_updateSale_omitted_quantity_changes_stock :
    isOk step3.result = true ∧
    (findProduct step2.db 1).map Product.stockQuantity = some 7 ∧
    (findProduct step3.db 1).map Product.stockQuantity = some 10 ∧
    (findSale step3.db 101).map Sale.quantitySold = some 3 ∧
    (findSale step3.db 101).map Sale.totalPriceTZS = some 600 := by
  decide

/-- C2 counterexample: against stock 10, a 3-unit sale at unit price 0
meets every stated precondition — product exists, quantity ≥ 1,
unitPrice ≥ 0, stock ≥ quantity — yet the call fails: the
required-fields truthiness check treats the 0 price as missing and
rejects the request before the dedicated negative-price check could
admit it.  Nothing is written. -/
theorem C2_zero_price_rejected_counterexample :
    (findProduct step1.db 1).map Product.stockQuantity = some 10 ∧
    ((0 : ℤ) ≤ 0 ∧ (1 : ℤ) ≤ 3 ∧ (3 : ℤ) ≤ 10) ∧
    (createSale fxNone step1.db 3 2 (saleReqOf 1 3 0 "cash" "paid")).result =
      .error (.validation
        "All fields are required: productId, quantity, sellingPrice, paymentMethod.") ∧
    (createSale fxNone step1.db 3 2 (saleReqOf 1 3 0 "cash" "paid")).db = step1.db := by
  decide

/-- C2 (amended): with the price precondition strengthened to
unitPrice > 0 — the reading the truthiness check enforces — and
schema-valid payment fields, every createSale call whose preconditions
hold succeeds: one Sale row is appended whose snapshot carries the
product name and sku and whose total equals quantity × unitPrice, and
the stock counter drops by exactly the quantity. -/
theorem C2_createSale_success (fx : SideFx) (db : DB) (u t pid : Nat)
    (q price : ℤ) (pm ps : String) (p : Product)
    (hp : findProduct db pid = some p) (hv : productValid p = true)
    (hq : 1 ≤ q) (hstock : q ≤ p.stockQuantity) (hprice : 0 < price)
    (hpm : pm = "cash" ∨ pm = "mobile" ∨ pm = "card")
    (hps : ps = "paid" ∨ ps = "pending") :
    ∃ sale : Sale,
      (createSale fx db u t (saleReqOf pid q price pm ps)).result = .ok sale ∧
      sale.snapName = p.name ∧ sale.snapSku = p.sku ∧
      sale.quantitySold = q ∧ sale.unitPriceAtSaleTZS = price ∧
      sale.totalPriceTZS = q * price ∧
      (createSale fx db u t (saleReqOf pid q price pm ps)).db.sales =
        db.sales ++ [sale] ∧
      findProduct (createSale fx db u t (saleReqOf pid q price pm ps)).db pid =
        some { p with stockQuantity := p.stockQuantity - q } := by
  obtain ⟨h1, h2, h3, h4, h5⟩ :=
    createSale_ok fx db u t pid q price pm ps p hp hv hq hstock hprice hpm hps
  exact ⟨mkSaleRow db u t pid q price pm ps p, h1, rfl, rfl, rfl, rfl, rfl, h2, h5⟩

/-- Witness for C2, the spec scenario A: stock 10, a 3-unit sale at
price 150 — the total is 450 and the stock counter drops to 7. -/
theorem C2_createSale_success_witness :
    (findProduct step1.db 1).map Product.stockQuantity = some 10 ∧
    (∃ sale : Sale,
      (createSale fxNone step1.db 3 2 (saleReqOf 1 3 150 "cash" "paid")).result = .ok sale ∧
      sale.snapName = productP.name ∧ sale.snapSku = productP.sku ∧
      sale.quantitySold = 3 ∧ sale.unitPriceAtSaleTZS = 150 ∧
      sale.totalPriceTZS = 3 * 150 ∧
      (createSale fxNone step1.db 3 2 (saleReqOf 1 3 150 "cash" "paid")).db.sales =
        step1.db.sales ++ [sale] ∧
      findProduct (createSale fxNone step1.db 3 2 (saleReqOf 1 3 150 "cash" "paid")).db 1 =
        some { productP with stockQuantity := 10 - 3 }) :=
  ⟨by decide,
   C2_createSale_success fxNone step1.db 3 2 1 3 150 "cash" "paid"
     { productP with stockQuantity := 10 } (by decide) (by decide) (by decide)
     (by decide) (by decide) (Or.inl rfl) (Or.inl rfl)⟩

theorem findProduct_removeSale (db : DB) (i pid : Nat) :
    findProduct (removeSale db i) pid = findProduct db pid := rfl

/-- C10: a successful `createSale` followed directly by `deleteSale` of
the row it created — with no other operation on the product in between —
restores the product stock counter to its exact pre-sale value. -/
theorem C10_create_delete_roundtrip (fx : SideFx) (db : DB) (u t u2 pid : Nat)
    (q price : ℤ) (pm ps : String) (p : Product)
    (hp : findProduct db pid = some p) (hv : productValid p = true)
    (hq : 1 ≤ q) (hstock : q ≤ p.stockQuantity) (hprice : 0 < price)
    (hpm : pm = "cash" ∨ pm = "mobile" ∨ pm = "card")
    (hps : ps = "paid" ∨ ps = "pending")
    (hfresh : findSale db db.nextId = none) :
    isOk (deleteSale fx (createSale fx db u t (saleReqOf pid q price pm ps)).db
        u2 db.nextId).result = true ∧
      (findProduct (deleteSale fx (createSale fx db u t (saleReqOf pid q price pm ps)).db
          u2 db.nextId).db pid).map Product.stockQuantity = some p.stockQuantity := by
  obtain ⟨hres, hsales, hpurch, hnext, hfind⟩ :=
    createSale_ok fx db u t pid q price pm ps p hp hv hq hstock hprice hpm hps
  have hfresh2 : db.sales.find? (fun s => s.sid == db.nextId) = none := hfresh
  have hrow : findSale (createSale fx db u t (saleReqOf pid q price pm ps)).db db.nextId
      = some (mkSaleRow db u t pid q price pm ps p) := by
    unfold findSale
    rw [hsales, List.find?_append, hfresh2]
    simp [mkSaleRow]
  have hpid : (mkSaleRow db u t pid q price pm ps p).productId = pid := rfl
  have hid2 : p.pid = pid := findProduct_pid hp
  unfold deleteSale
  rw [hrow]
  simp only [hpid, hfind, mkSaleRow]
  rw [if_neg (by simp [hv])]
  refine ⟨rfl, ?_⟩
  rw [findProduct_removeSale, findProduct_createAuditLog]
  have hsave := findProduct_saveProduct
    ({ p with stockQuantity := p.stockQuantity - q + q }) hfind hid2
  rw [hsave]
  have hcancel : p.stockQuantity - q + q = p.stockQuantity := by omega
  simp [hcancel]

/-- Witness for C10, the spec scenario D: stock 10, sell 3 (stock 7),
delete that sale — stock returns to 10. -/
theorem C10_create_delete_roundtrip_witness :
    (findProduct step1.db 1).map Product.stockQuantity = some 10 ∧
    isOk (deleteSale fxNone (createSale fxNone step1.db 3 2
        (saleReqOf 1 3 150 "cash" "paid")).db 3 step1.db.nextId).result = true ∧
    (findProduct (deleteSale fxNone (createSale fxNone step1.db 3 2
        (saleReqOf 1 3 150 "cash" "paid")).db 3 step1.db.nextId).db 1).map
      Product.stockQuantity = some 10 :=
  ⟨by decide,
   (C10_create_delete_roundtrip fxNone step1.db 3 2 3 1 3 150 "cash" "paid"
     { productP with stockQuantity := 10 } (by decide) (by decide) (by decide)
     (by decide) (by decide) (Or.inl rfl) (Or.inl rfl) (by decide)).1,
   (C10_create_delete_roundtrip fxNone step1.db 3 2 3 1 3 150 "cash" "paid"
     { productP with stockQuantity := 10 } (by decide) (by decide) (by decide)
     (by decide) (by decide) (Or.inl rfl) (Or.inl rfl) (by decide)).2⟩

/-- C6 counterexample: in the committed step-2 sale (and the step-1
purchase) the audit write and the notification fan-out are issued
strictly BEFORE `session.commitTransaction()` — between the stock save
and the commit, outside the session — refuting the claim that they are
written strictly after the atomic scope commits. -/
theorem C6_writes_before_commit_counterexample :
    isOk step2.result = true ∧
    step2.trace = [Ev.rowInsert, Ev.productSave, Ev.auditWrite, Ev.saleNotif,
      Ev.commitTxn] ∧
    step2.trace.indexOf Ev.auditWrite < step2.trace.indexOf Ev.commitTxn ∧
    step2.trace.indexOf Ev.saleNotif < step2.trace.indexOf Ev.commitTxn ∧
    isOk step1.result = true ∧
    step1.trace.indexOf Ev.auditWrite < step1.trace.indexOf Ev.commitTxn := by
  decide

/-- C6 (amended): the audit and notification writes of `createSale` and
`createPurchase` happen before the commit and outside the session, but
their failure is swallowed inside the helpers (caught and logged, never
rethrown): the call result, every ledger collection and the event order
are identical whether or not the two side channels fail, so a failing
audit or notification write never blocks, aborts or rolls back the
sale or purchase. -/
theorem C6_side_effect_failures_never_propagate (fx : SideFx) (db : DB)
    (u t : Nat) (r : CreateSaleReq) (r2 : CreatePurchaseReq) :
    ((createSale fx db u t r).result = (createSale fxNone db u t r).result ∧
      (createSale fx db u t r).db.products = (createSale fxNone db u t r).db.products ∧
      (createSale fx db u t r).db.sales = (createSale fxNone db u t r).db.sales ∧
      (createSale fx db u t r).db.purchases = (createSale fxNone db u t r).db.purchases ∧
      (createSale fx db u t r).trace = (createSale fxNone db u t r).trace) ∧
    ((createPurchase fx db u t r2).result = (createPurchase fxNone db u t r2).result ∧
      (createPurchase fx db u t r2).db.products
        = (createPurchase fxNone db u t r2).db.products ∧
      (createPurchase fx db u t r2).db.sales = (createPurchase fxNone db u t r2).db.sales ∧
      (createPurchase fx db u t r2).db.purchases
        = (createPurchase fxNone db u t r2).db.purchases ∧
      (createPurchase fx db u t r2).trace = (createPurchase fxNone db u t r2).trace) := by
  constructor
  · unfold createSale
    simp only []
    repeat' split
    all_goals simp_all
  · unfold createPurchase
    simp only []
    repeat' split
    all_goals simp_all

/-- C7: `getSalesReport` aggregates its revenue totals from paid rows
only and runs a second, independent aggregate pass over the pending
rows of the same range, but the response `totals` object does NOT carry
the pending figures: the handler attaches them to a local object and
then rebuilds the response literal without them.  Formally, the
returned report is entirely independent of any pending row — refuting
the claim that pendingRevenue and pendingOrders are returned inside
totals — while the pending pass itself does register that row. -/
theorem C7_pending_totals_computed_but_dropped (db : DB) (dr : DateRange)
    (fmt : Nat → String) (s : Sale) (hs : s.paymentStatus = "pending") :
    getSalesReport { db with sales := db.sales ++ [s] } dr fmt =
        getSalesReport db dr fmt ∧
      salesReportPendingTotals { db with sales := db.sales ++ [s] } dr =
        (if inRange dr s.date then
          ({ totalPending := (salesReportPendingTotals db dr).totalPending + s.totalPriceTZS,
             pendingOrders := (salesReportPendingTotals db dr).pendingOrders + 1 } :
            PendingTotals)
        else salesReportPendingTotals db dr) := by
  have hpaid : paidSalesInRange { db with sales := db.sales ++ [s] } dr
      = paidSalesInRange db dr := by
    unfold paidSalesInRange
    simp [List.filter_append, hs]
  constructor
  · unfold getSalesReport
    rw [hpaid]
  · unfold salesReportPendingTotals pendingSalesInRange
    by_cases hd : inRange dr s.date
    · simp [List.filter_append, hs, hd]
    · simp [List.filter_append, hs, hd]

/-- Witness for C7: for the range covering days 10 to 20, the paid pass
over the two-row history yields revenue 1000 from the single paid row,
the pending pass registers the 500 pending row, and the returned report
is identical with and without that pending row. -/
theorem C7_pending_totals_computed_but_dropped_witness :
    pendingRow.paymentStatus = "pending" ∧
    (getSalesReport dbReports { startDate := some 10, endDate := some 20 }
        (fun d => toString d)).totals.totalRevenue = 1000 ∧
    salesReportPendingTotals dbReports { startDate := some 10, endDate := some 20 } =
      { totalPending := 500, pendingOrders := 1 } ∧
    getSalesReport { dbReportsPaidOnly with
        sales := dbReportsPaidOnly.sales ++ [pendingRow] }
        { startDate := some 10, endDate := some 20 } (fun d => toString d) =
      getSalesReport dbReportsPaidOnly { startDate := some 10, endDate := some 20 }
        (fun d => toString d) :=
  ⟨by decide, by decide, by decide,
   (C7_pending_totals_computed_but_dropped dbReportsPaidOnly
     { startDate := some 10, endDate := some 20 } (fun d => toString d)
     pendingRow (by decide)).1⟩

/-- C8 counterexample: with one paid sale of 1000 and one pending sale
of 500 inside the current-day window, the dashboard reports a today
revenue of 1500 and a today order count of 2: the aggregation matches
only on the date window and carries no paymentStatus condition, so
pending sales are counted — contradicting the paid-only claim, under
which the numbers would be 1000 and 1. -/
theorem C8_today_revenue_includes_pending_counterexample :
    (getDashboardSummary dbReports 10 20 0 (fun d => toString d)).todayRevenue = 1500 ∧
    (getDashboardSummary dbReports 10 20 0 (fun d => toString d)).todayOrders = 2 ∧
    ((dbReports.sales.filter (fun s => (10 ≤ s.date && s.date < 20) &&
        s.paymentStatus == "paid")).map Sale.totalPriceTZS).sum = 1000 ∧
    (dbReports.sales.filter (fun s => (10 ≤ s.date && s.date < 20) &&
        s.paymentStatus == "paid")).length = 1 := by
  decide

theorem filter_sum_split (l : List Sale) (w : Sale → Bool) (f : Sale → ℤ)
    (henum : ∀ s ∈ l, s.paymentStatus = "paid" ∨ s.paymentStatus = "pending") :
    ((l.filter w).map f).sum =
      ((l.filter (fun s => w s && s.paymentStatus == "paid")).map f).sum +
      ((l.filter (fun s => w s && s.paymentStatus == "pending")).map f).sum := by
  induction l with
  | nil => simp
  | cons a l ih =>
    have ha := henum a (List.mem_cons_self a l)
    have ih' := ih (fun s hs => henum s (List.mem_cons_of_mem a hs))
    by_cases hw : w a
    · rcases ha with h | h <;> simp [List.filter_cons, hw, h, ih'] <;> ring
    · simp [List.filter_cons, hw, ih']

theorem filter_length_split (l : List Sale) (w : Sale → Bool)
    (henum : ∀ s ∈ l, s.paymentStatus = "paid" ∨ s.paymentStatus = "pending") :
    (l.filter w).length =
      (l.filter (fun s => w s && s.paymentStatus == "paid")).length +
      (l.filter (fun s => w s && s.paymentStatus == "pending")).length := by
  induction l with
  | nil => simp
  | cons a l ih =>
    have ha := henum a (List.mem_cons_self a l)
    have ih' := ih (fun s hs => henum s (List.mem_cons_of_mem a hs))
    by_cases hw : w a
    · rcases ha with h | h <;> simp [List.filter_cons, hw, h, ih'] <;> omega
    · simp [List.filter_cons, hw, ih']

theorem topTodayGroups_quantity (db : DB) (t0 t1 : Nat) :
    ∀ x ∈ topTodayGroups db t0 t1, x.quantity = soldTodayQty db t0 t1 x.productId := by
  intro x hx
  unfold topTodayGroups at hx
  simp only [List.mem_map] at hx
  obtain ⟨pid, hpid, rfl⟩ := hx
  unfold soldTodayQty
  simp [List.filter_filter]

theorem topTodayGroups_covers (db : DB) (t0 t1 : Nat) :
    ∀ pid ∈ (db.sales.filter (fun s => t0 ≤ s.date && s.date < t1)).map Sale.productId,
      ∃ x ∈ topTodayGroups db t0 t1, x.productId = pid := by
  intro pid hpid
  unfold topTodayGroups
  exact ⟨_, List.mem_map_of_mem _ (List.mem_dedup.mpr hpid), rfl⟩

/-- C8 (amended): the dashboard today pass carries no paymentStatus
condition, so today revenue and order count cover ALL sales of the
current-day window — they decompose as the paid plus the pending part —
while the low-stock figure counts the products at or under the
threshold, the pending figure counts the pending-payment sales over all
time, and the top-product-today entry carries the maximal sold-today
quantity among the products sold in the window. -/
theorem C8_dashboard_summary_amended (db : DB) (t0 t1 t30 : Nat) (dayFmt : Nat → String)
    (henum : ∀ s ∈ db.sales, s.paymentStatus = "paid" ∨ s.paymentStatus = "pending") :
    (getDashboardSummary db t0 t1 t30 dayFmt).todayRevenue =
      ((db.sales.filter (fun s => (t0 ≤ s.date && s.date < t1) &&
          s.paymentStatus == "paid")).map Sale.totalPriceTZS).sum +
      ((db.sales.filter (fun s => (t0 ≤ s.date && s.date < t1) &&
          s.paymentStatus == "pending")).map Sale.totalPriceTZS).sum ∧
    (getDashboardSummary db t0 t1 t30 dayFmt).todayOrders =
      (db.sales.filter (fun s => (t0 ≤ s.date && s.date < t1) &&
          s.paymentStatus == "paid")).length +
      (db.sales.filter (fun s => (t0 ≤ s.date && s.date < t1) &&
          s.paymentStatus == "pending")).length ∧
    (getDashboardSummary db t0 t1 t30 dayFmt).lowStockCount =
      db.products.countP (fun p => p.stockQuantity ≤ 5) ∧
    (getDashboardSummary db t0 t1 t30 dayFmt).pendingPayments =
      db.sales.countP (fun s => s.paymentStatus == "pending") ∧
    (∀ top, (getDashboardSummary db t0 t1 t30 dayFmt).topProductToday = some top →
      (∀ pid ∈ (db.sales.filter (fun s => t0 ≤ s.date && s.date < t1)).map Sale.productId,
        soldTodayQty db t0 t1 pid ≤ top.quantity) ∧
      top.quantity = soldTodayQty db t0 t1 top.productId) := by
  refine ⟨?_, ?_, ?_, ?_, ?_⟩
  · exact filter_sum_split db.sales _ _ henum
  · exact filter_length_split db.sales _ henum
  · unfold getDashboardSummary
    simp [List.countP_eq_length_filter]
  · unfold getDashboardSummary
    simp [List.countP_eq_length_filter]
  · intro top htop
    unfold getDashboardSummary at htop
    simp only [] at htop
    set r := fun a b : TopToday => b.quantity ≤ a.quantity with hr
    haveI instTot : IsTotal TopToday r := ⟨fun a b => le_total b.quantity a.quantity⟩
    haveI instTrans : IsTrans TopToday r := ⟨fun a b c h1 h2 => le_trans h2 h1⟩
    have hperm := List.perm_insertionSort r (topTodayGroups db t0 t1)
    have hsorted := List.sorted_insertionSort r (topTodayGroups db t0 t1)
    obtain ⟨tl, hcons⟩ : ∃ tl, List.insertionSort r (topTodayGroups db t0 t1) = top :: tl := by
      cases hs : List.insertionSort r (topTodayGroups db t0 t1) with
      | nil => rw [hs] at htop; simp at htop
      | cons a l =>
        rw [hs] at htop
        simp at htop
        exact ⟨l, by rw [htop]⟩
    have hmax : ∀ x ∈ topTodayGroups db t0 t1, x.quantity ≤ top.quantity := by
      intro x hx
      have hx2 : x ∈ top :: tl := by rw [← hcons]; exact hperm.mem_iff.mpr hx
      rcases List.mem_cons.mp hx2 with h | h
      · rw [h]
      · have hp := hcons ▸ hsorted
        exact (List.pairwise_cons.mp hp).1 x h
    have htopmem : top ∈ topTodayGroups db t0 t1 :=
      hperm.mem_iff.mp (hcons ▸ List.mem_cons_self top tl)
    constructor
    · intro pid hpid
      obtain ⟨x, hxmem, hxid⟩ := topTodayGroups_covers db t0 t1 pid hpid
      have hq := topTodayGroups_quantity db t0 t1 x hxmem
      rw [← hxid, ← hq]
      exact hmax x hxmem
    · exact topTodayGroups_quantity db t0 t1 top htopmem

/-- Witness for C8: on the two-row history the today revenue 1500
decomposes into the 1000 paid part plus the 500 pending part. -/
theorem C8_dashboard_summary_amended_witness :
    (∀ s ∈ dbReports.sales, s.paymentStatus = "paid" ∨ s.paymentStatus = "pending") ∧
    (getDashboardSummary dbReports 10 20 0 (fun d => toString d)).todayRevenue =
      ((dbReports.sales.filter (fun s => (10 ≤ s.date && s.date < 20) &&
          s.paymentStatus == "paid")).map Sale.totalPriceTZS).sum +
      ((dbReports.sales.filter (fun s => (10 ≤ s.date && s.date < 20) &&
          s.paymentStatus == "pending")).map Sale.totalPriceTZS).sum :=
  ⟨by decide,
   (C8_dashboard_summary_amended dbReports 10 20 0 (fun d => toString d) (by decide)).1⟩

/-- C9 counterexample: in the reachable state with a committed purchase
of 10 units and an intervening sale of 3 (stock 7), deleting the
purchase does NOT succeed with a negative committed stock, as the claim
asserts: the unconditional subtraction 7 − 10 fails the min-0 schema
validation inside `product.save`, the catch-all aborts the transaction,
and the call returns the generic failure with the store unchanged — the
purchase row survives and stock stays 7. -/
theorem C9_negative_stock_delete_counterexample :
    isOk step1.result = true ∧ isOk step2.result = true ∧
    (findPurchase step2.db 100).map Purchase.quantityPurchased = some 10 ∧
    (findProduct step2.db 1).map Product.stockQuantity = some 7 ∧
    (deletePurchase fxNone step2.db 3 100).result =
      .error (.server "Failed to delete purchase.") ∧
    (deletePurchase fxNone step2.db 3 100).db = step2.db := by
  decide

/-- C9 (amended): `deletePurchase` subtracts the purchased quantity
unconditionally and the controller has no explicit guard, but the min-0
validator of the product schema runs inside `product.save`: whenever
intervening sales consumed the purchased units (stock below the
purchased quantity), the save throws, the transaction aborts, and the
deletion fails with the generic error leaving the store unchanged —
committed stock never goes negative on this path. -/
theorem C9_deletePurchase_aborts_on_consumed_stock (fx : SideFx) (db : DB)
    (u prid : Nat) (pr : Purchase) (p : Product)
    (hpr : findPurchase db prid = some pr)
    (hp : findProduct db pr.productId = some p)
    (hlt : p.stockQuantity < pr.quantityPurchased) :
    (deletePurchase fx db u prid).result =
        .error (.server "Failed to delete purchase.") ∧
      (deletePurchase fx db u prid).db = db := by
  have hneg : ¬(0 ≤ p.stockQuantity - pr.quantityPurchased) := by omega
  have hval : productValid
      { p with stockQuantity := p.stockQuantity - pr.quantityPurchased } = false := by
    simp [productValid, hneg]
  unfold deletePurchase
  rw [hpr]
  simp only [hp]
  rw [if_pos (by simp [hval])]
  exact ⟨rfl, rfl⟩

/-- Witness for C9: the purchase of 10 against stock 7 cannot be
deleted; the call errors and the store is unchanged. -/
theorem C9_deletePurchase_aborts_on_consumed_stock_witness :
    (findPurchase step2.db 100).map Purchase.quantityPurchased = some 10 ∧
    (findProduct step2.db 1).map Product.stockQuantity = some 7 ∧
    (deletePurchase fxNone step2.db 3 100).result =
      .error (.server "Failed to delete purchase.") ∧
    (deletePurchase fxNone step2.db 3 100).db = step2.db :=
  ⟨by decide, by decide,
   (C9_deletePurchase_aborts_on_consumed_stock fxNone step2.db 3 100
     { prid := 100, productId := 1, quantityPurchased := 10, unitCostTZS := 100,
       totalCostTZS := 1000, supplierText := "Acme", purchasedBy := 3, date := 1 }
     { productP with stockQuantity := 7 } (by decide) (by decide) (by decide)).1,
   (C9_deletePurchase_aborts_on_consumed_stock fxNone step2.db 3 100
     { prid := 100, productId := 1, quantityPurchased := 10, unitCostTZS := 100,
       totalCostTZS := 1000, supplierText := "Acme", purchasedBy := 3, date := 1 }
     { productP with stockQuantity := 7 } (by decide) (by decide) (by decide)).2⟩

end Kamcorp
